import Mathlib

/-!
Verification development for the C-warrior compiler sandbox subsystem.

Shallow embedding of:
- `src/src/compiler/mod.rs` (sandbox mode detection, compile/execute orchestrator),
- `src/src/compiler/seccomp_sandbox.rs` (seccomp-bpf filter construction),
- `src/src/compiler/sandbox.rs` (bubblewrap and fallback executors),
- `src/src/levels/harness.rs` (test-harness source generation).

Effectful Rust code is embedded as pure Lean functions over explicit
environment records: every OS interaction (filesystem, process spawning,
timeouts) is represented by an oracle field describing its outcome, and
the functions mirror the Rust control flow over those outcomes.
-/

/-! ### Sandbox mode (src/src/compiler/mod.rs, lines 22-31) -/

/-- Available sandbox modes, in order of preference. -/
inductive SandboxMode where
  /-- seccomp-bpf syscall filtering (works in containers) -/
  | Seccomp
  /-- bubblewrap namespace isolation (requires namespace privileges) -/
  | Bubblewrap
  /-- No sandbox - DEVELOPMENT ONLY -/
  | Fallback
deriving DecidableEq, Repr

/-- Environment probed by `detect_sandbox_mode` (mod.rs lines 47-92).
Each field records the result of one runtime/compile-time probe. -/
structure DetectEnv where
  /-- cfg(all(target_os = "linux", feature = "seccomp")) holds and
      `is_seccomp_available()` returned true (PR_GET_NO_NEW_PRIVS probe). -/
  seccomp_supported : Bool
  /-- `sandbox::is_bwrap_available()`: the `bwrap` binary is on PATH. -/
  bwrap_available : Bool
  /-- `test_bwrap_namespaces()`: `bwrap --unshare-pid -- /bin/true` succeeded. -/
  bwrap_namespaces_work : Bool
  /-- cfg(target_os = "macos"). -/
  target_macos : Bool
  /-- The environment variable ALLOW_INSECURE_SANDBOX is set to exactly "1". -/
  allow_insecure_sandbox : Bool
deriving DecidableEq, Repr

/-- `detect_sandbox_mode` (mod.rs lines 47-92). `none` models the
`panic` arm: "FATAL: No secure sandbox available!" - the process refuses
to start rather than silently running without a sandbox. -/
def detect_sandbox_mode (e : DetectEnv) : Option SandboxMode :=
  -- Try seccomp first (preferred for containers)
  if e.seccomp_supported then some SandboxMode.Seccomp
  -- Try bubblewrap; test if bwrap actually works (namespace creation)
  else if e.bwrap_available && e.bwrap_namespaces_work then some SandboxMode.Bubblewrap
  -- macOS: Always allow fallback (development only, servers are Linux)
  else if e.target_macos then some SandboxMode.Fallback
  -- Linux: Check if insecure mode is explicitly allowed
  else if e.allow_insecure_sandbox then some SandboxMode.Fallback
  -- FAIL HARD in production - do not silently run without sandbox
  else none

/-! ### Seccomp filter (src/src/compiler/seccomp_sandbox.rs, lines 51-187)

x86_64 syscall numbers for the `libc::SYS_*` constants used by
`build_seccomp_filter`, plus a few used only in theorems (networking,
ptrace, fork) to show what is *outside* the allow-list. -/

def SYS_read : Int := 0
def SYS_write : Int := 1
def SYS_close : Int := 3
def SYS_fstat : Int := 5
def SYS_poll : Int := 7
def SYS_lseek : Int := 8
def SYS_mmap : Int := 9
def SYS_mprotect : Int := 10
def SYS_munmap : Int := 11
def SYS_brk : Int := 12
def SYS_rt_sigaction : Int := 13
def SYS_rt_sigprocmask : Int := 14
def SYS_rt_sigreturn : Int := 15
def SYS_ioctl : Int := 16
def SYS_readv : Int := 19
def SYS_writev : Int := 20
def SYS_access : Int := 21
def SYS_pipe : Int := 22
def SYS_sched_yield : Int := 24
def SYS_mremap : Int := 25
def SYS_msync : Int := 26
def SYS_madvise : Int := 28
def SYS_dup : Int := 32
def SYS_dup2 : Int := 33
def SYS_nanosleep : Int := 35
def SYS_getpid : Int := 39
def SYS_socket : Int := 41
def SYS_connect : Int := 42
def SYS_accept : Int := 43
def SYS_clone : Int := 56
def SYS_fork : Int := 57
def SYS_vfork : Int := 58
def SYS_execve : Int := 59
def SYS_exit : Int := 60
def SYS_uname : Int := 63
def SYS_fcntl : Int := 72
def SYS_getcwd : Int := 79
def SYS_readlink : Int := 89
def SYS_gettimeofday : Int := 96
def SYS_getrlimit : Int := 97
def SYS_times : Int := 100
def SYS_ptrace : Int := 101
def SYS_getuid : Int := 102
def SYS_getgid : Int := 104
def SYS_geteuid : Int := 107
def SYS_getegid : Int := 108
def SYS_getppid : Int := 110
def SYS_sigaltstack : Int := 131
def SYS_prctl : Int := 157
def SYS_arch_prctl : Int := 158
def SYS_gettid : Int := 186
def SYS_time : Int := 201
def SYS_futex : Int := 202
def SYS_sched_getaffinity : Int := 204
def SYS_set_tid_address : Int := 218
def SYS_clock_gettime : Int := 228
def SYS_clock_nanosleep : Int := 230
def SYS_exit_group : Int := 231
def SYS_tgkill : Int := 234
def SYS_openat : Int := 257
def SYS_newfstatat : Int := 262
def SYS_readlinkat : Int := 267
def SYS_faccessat : Int := 269
def SYS_ppoll : Int := 271
def SYS_set_robust_list : Int := 273
def SYS_get_robust_list : Int := 274
def SYS_dup3 : Int := 292
def SYS_pipe2 : Int := 293
def SYS_prlimit64 : Int := 302
def SYS_getrandom : Int := 318
def SYS_execveat : Int := 322
def SYS_statx : Int := 332
def SYS_rseq : Int := 334
def SYS_clone3 : Int := 435
def SYS_faccessat2 : Int := 439

/-- Filter actions used by the filter (seccompiler `SeccompAction`). -/
inductive SeccompAction where
  | Allow
  | KillProcess
deriving DecidableEq, Repr

/-- A single argument condition (seccompiler `SeccompCondition` with
`SeccompCmpOp::MaskedEq mask` and `SeccompCmpArgLen::Qword`). -/
structure SeccompCondition where
  arg_index : Nat
  mask : Nat
  value : Nat
deriving DecidableEq, Repr

/-- A rule is a conjunction of conditions (seccompiler `SeccompRule`). -/
structure SeccompRule where
  conditions : List SeccompCondition
deriving DecidableEq, Repr

/-- Masked equality: the masked argument equals the masked value. -/
def condition_matches (args : Nat → Nat) (c : SeccompCondition) : Bool :=
  (args c.arg_index) &&& c.mask == c.value &&& c.mask

/-- A rule matches when all of its conditions hold. -/
def rule_matches (args : Nat → Nat) (r : SeccompRule) : Bool :=
  r.conditions.all (condition_matches args)

/-- The filter program: rule map (the Rust BTreeMap, as an association
list), the action on no match, and the action on a match. -/
structure SeccompFilter where
  rules : List (Int × List SeccompRule)
  mismatch_action : SeccompAction
  match_action : SeccompAction

/-- BTreeMap::insert - replaces the binding when the key is present. -/
def rules_insert (m : List (Int × List SeccompRule)) (k : Int) (v : List SeccompRule) :
    List (Int × List SeccompRule) :=
  match m with
  | [] => [(k, v)]
  | (k0, v0) :: rest =>
    if k0 = k then (k, v) :: rest else (k0, v0) :: rules_insert rest k v

/-- BTreeMap lookup. -/
def rules_lookup (m : List (Int × List SeccompRule)) (k : Int) :
    Option (List SeccompRule) :=
  match m with
  | [] => none
  | (k0, v0) :: rest => if k0 = k then some v0 else rules_lookup rest k

/-- Semantics of the compiled filter on one syscall invocation
(seccompiler BPF semantics): a syscall absent from the rule map gets the
mismatch action; a syscall bound to an empty rule list is matched
unconditionally; otherwise the syscall is matched iff some rule matches. -/
def filter_action (f : SeccompFilter) (syscall : Int) (args : Nat → Nat) :
    SeccompAction :=
  match rules_lookup f.rules syscall with
  | none => f.mismatch_action
  | some [] => f.match_action
  | some rs => if rs.any (rule_matches args) then f.match_action else f.mismatch_action

/-- Whitelist of allowed syscalls (seccomp_sandbox.rs lines 55-149),
in source order. -/
def allowed_syscalls : List Int :=
  [ -- Process execution (needed for pre_exec to work)
    SYS_execve, SYS_execveat,
    -- Basic I/O
    SYS_read, SYS_write, SYS_close, SYS_fstat, SYS_lseek,
    SYS_dup, SYS_dup2, SYS_dup3, SYS_pipe, SYS_pipe2,
    -- File operations (needed by musl/glibc for basic operations)
    SYS_openat, SYS_newfstatat, SYS_readlinkat, SYS_access,
    SYS_faccessat, SYS_faccessat2, SYS_statx, SYS_readlink, SYS_getcwd,
    -- Memory management
    SYS_brk, SYS_mmap, SYS_munmap, SYS_mprotect, SYS_mremap,
    -- Threading (pthreads)
    SYS_clone, SYS_clone3, SYS_futex, SYS_set_robust_list,
    SYS_get_robust_list, SYS_set_tid_address, SYS_gettid, SYS_tgkill,
    SYS_sched_yield, SYS_sched_getaffinity, SYS_nanosleep,
    SYS_clock_nanosleep, SYS_rseq,
    -- Process info (read-only)
    SYS_getpid, SYS_getppid, SYS_getuid, SYS_geteuid, SYS_getgid, SYS_getegid,
    -- Signals
    SYS_rt_sigaction, SYS_rt_sigprocmask, SYS_rt_sigreturn, SYS_sigaltstack,
    -- Exit
    SYS_exit, SYS_exit_group,
    -- Misc required for glibc/musl
    SYS_arch_prctl, SYS_getrandom, SYS_clock_gettime, SYS_gettimeofday,
    SYS_time, SYS_times, SYS_uname, SYS_getrlimit, SYS_prlimit64, SYS_prctl,
    -- Required for stdio
    SYS_ioctl, SYS_fcntl, SYS_poll, SYS_ppoll, SYS_writev, SYS_readv,
    -- Required for memory-mapped I/O
    SYS_msync, SYS_madvise ]

/-- Special rule for clone: only allow thread creation, not fork.
CLONE_THREAD (0x10000) must be set (MaskedEq with mask 0x10000 on the
first argument, the clone flags). -/
def clone_thread_rule : SeccompRule :=
  { conditions := [{ arg_index := 0, mask := 0x10000, value := 0x10000 }] }

/-- `build_seccomp_filter` (seccomp_sandbox.rs lines 51-187): every
allowed syscall is inserted with an empty (unconditional) rule list, then
the clone binding is replaced with the CLONE_THREAD-only rule; default
action is KillProcess, match action is Allow. The Rust function returns
`Result` but its error arms fire only on a policy-authoring bug in
seccompiler rule construction, which cannot occur for these constants. -/
def build_seccomp_filter : SeccompFilter :=
  { rules :=
      rules_insert
        (allowed_syscalls.foldl (fun m s => rules_insert m s []) [])
        SYS_clone [clone_thread_rule],
    mismatch_action := SeccompAction.KillProcess,
    match_action := SeccompAction.Allow }

/-! ### Executors (src/src/compiler/sandbox.rs, seccomp_sandbox.rs)

A spawned child's behavior is modelled as a `ProcOutcome`; where the child
may read standard input, the behavior is a function of the data the parent
forwarded to it (`none` = nothing piped/forwarded). -/

/-- Result of sandbox execution (sandbox.rs lines 29-35). -/
structure SandboxResult where
  stdout : String
  stderr : String
  exit_code : Option Int
  timed_out : Bool
  execution_time_ms : Nat
deriving DecidableEq, Repr

/-- Configuration for the bubblewrap sandbox (sandbox.rs lines 12-26). -/
structure SandboxConfig where
  /-- Execution timeout in seconds -/
  timeout_secs : Nat
  /-- Memory limit in bytes (0 = unlimited) -/
  memory_limit : Nat
deriving DecidableEq, Repr

/-- `SandboxConfig::default()`: 5 seconds, 64MB. -/
def SandboxConfig.mkDefault : SandboxConfig :=
  { timeout_secs := 5, memory_limit := 64 * 1024 * 1024 }

/-- Outcome of one attempted child process, resolved against the
wall-clock timeout wrapped around it. -/
inductive ProcOutcome where
  /-- The process ran to completion within the timeout:
      `output.status.code()`, stdout bytes, stderr bytes. -/
  | completed (exit_code : Option Int) (stdout stderr : String)
  /-- The io::Error from spawning / collecting the process. -/
  | spawnFailed (msg : String)
  /-- The blocking task panicked. -/
  | panicked (msg : String)
  /-- The tokio timeout elapsed first. -/
  | timedOut

/-- `fallback_execute` (sandbox.rs lines 151-191). `Command::output()`
gives the child a null stdin, so the behavior is sampled at `none`.
`elapsed_ms` is the wall-clock measurement `start.elapsed().as_millis()`. -/
def fallback_execute (behavior : Option String → ProcOutcome)
    (timeout_secs : Nat) (elapsed_ms : Nat) : Except String SandboxResult :=
  match behavior none with
  | ProcOutcome.completed code out err =>
    Except.ok { stdout := out, stderr := err, exit_code := code,
                timed_out := false, execution_time_ms := elapsed_ms }
  | ProcOutcome.spawnFailed e => Except.error ("Failed to execute: " ++ e)
  | ProcOutcome.panicked e => Except.error ("Task panicked: " ++ e)
  | ProcOutcome.timedOut =>
    Except.ok { stdout := "", stderr := "Execution timed out", exit_code := none,
                timed_out := true, execution_time_ms := timeout_secs * 1000 }

/-- `sandbox_execute` (sandbox.rs lines 62-144): bubblewrap execution.
The bwrap child also gets a null stdin (`Command::output()`); only the
error message for a spawn failure differs from the fallback executor. -/
def sandbox_execute (config : SandboxConfig) (behavior : Option String → ProcOutcome)
    (elapsed_ms : Nat) : Except String SandboxResult :=
  match behavior none with
  | ProcOutcome.completed code out err =>
    Except.ok { stdout := out, stderr := err, exit_code := code,
                timed_out := false, execution_time_ms := elapsed_ms }
  | ProcOutcome.spawnFailed e => Except.error ("Failed to spawn sandbox: " ++ e)
  | ProcOutcome.panicked e => Except.error ("Task panicked: " ++ e)
  | ProcOutcome.timedOut =>
    Except.ok { stdout := "", stderr := "Execution timed out", exit_code := none,
                timed_out := true, execution_time_ms := config.timeout_secs * 1000 }

/-- `seccomp_execute` (seccomp_sandbox.rs lines 205-233): the parent
pipes the child's stdin and writes `stdin_data` to it, so the behavior is
sampled at the forwarded input. A spawn failure surfaces through
`execute_with_seccomp_sync` as "Failed to spawn process". -/
def seccomp_execute (behavior : Option String → ProcOutcome)
    (stdin_data : Option String) (timeout_secs : Nat) (elapsed_ms : Nat) :
    Except String SandboxResult :=
  match behavior stdin_data with
  | ProcOutcome.completed code out err =>
    Except.ok { stdout := out, stderr := err, exit_code := code,
                timed_out := false, execution_time_ms := elapsed_ms }
  | ProcOutcome.spawnFailed e => Except.error ("Failed to spawn process: " ++ e)
  | ProcOutcome.panicked e => Except.error ("Task panicked: " ++ e)
  | ProcOutcome.timedOut =>
    Except.ok { stdout := "", stderr := "Execution timed out", exit_code := none,
                timed_out := true, execution_time_ms := timeout_secs * 1000 }

/-! ### Compile/execute orchestrator (src/src/compiler/mod.rs) -/

/-- `ExecutionOutput` (mod.rs lines 111-120), with `Default` values. -/
structure ExecutionOutput where
  stdout : String := ""
  stderr : String := ""
  compile_error : Option String := none
  runtime_error : Option String := none
  exit_code : Option Int := none
  execution_time_ms : Nat := 0
  timed_out : Bool := false
deriving DecidableEq, Repr

/-- `ExecutionOutput::compile_success` (mod.rs lines 123-125). -/
def ExecutionOutput.compile_success (o : ExecutionOutput) : Bool :=
  o.compile_error.isNone

/-- `ExecutionOutput::run_success` (mod.rs lines 127-132). -/
def ExecutionOutput.run_success (o : ExecutionOutput) : Bool :=
  o.compile_success && o.runtime_error.isNone && !o.timed_out
    && o.exit_code == some 0

/-- `CCompiler` (mod.rs lines 135-141). -/
structure CCompiler where
  temp_dir : String
  timeout_secs : Nat
  max_code_size : Nat
  sandbox_mode : SandboxMode
  sandbox_config : SandboxConfig

/-- `CCompiler::new` (mod.rs lines 150-185), parameterized by the
detected mode and the host temp dir (`std::env::temp_dir()`). -/
def CCompiler.new (temp_dir : String) (sandbox_mode : SandboxMode) : CCompiler :=
  { temp_dir := temp_dir, timeout_secs := 5, max_code_size := 10240,
    sandbox_mode := sandbox_mode, sandbox_config := SandboxConfig.mkDefault }

/-- Substring containment, Rust `str::contains(&str)`. -/
def str_contains (hay needle : String) : Bool :=
  hay.toList.tails.any (fun t => needle.toList.isPrefixOf t)

/-- Rust `str::trim_end_matches(char)`. -/
def trim_end_matches (s : String) (c : Char) : String :=
  String.mk ((s.toList.reverse.dropWhile (fun x => x == c)).reverse)

/-- The fallback-mode textual denylist (mod.rs line 194). -/
def DANGEROUS_FUNCS : List String := ["system(", "exec(", "popen(", "fork("]

/-- `CCompiler::check_dangerous_functions` (mod.rs lines 193-206):
the first denylist entry occurring as a substring of the source is
reported as an error. -/
def check_dangerous_functions (source : String) : Except String Unit :=
  match DANGEROUS_FUNCS.find? (fun f => str_contains source f) with
  | some f =>
    Except.error ("Dangerous function \x27" ++ trim_end_matches f '('
      ++ "\x27 is not allowed")
  | none => Except.ok ()

/-- The effect oracle for one `compile_and_run_with_input` call: outcomes
of the filesystem operations, of the gcc invocation, and of running the
produced binary. Durations are wall-clock samples. -/
structure ExecEnv where
  /-- cfg(all(target_os = "linux", feature = "seccomp")) in this build. -/
  seccomp_platform : Bool
  /-- `some e`: `std::fs::create_dir_all` for the scratch dir failed with `e`. -/
  create_dir_result : Option String
  /-- `some e`: `std::fs::write` of code.c failed with `e`. -/
  write_result : Option String
  /-- Behavior of the spawned gcc process (gcc reads no stdin). -/
  compile_behavior : Option String → ProcOutcome
  /-- Behavior of the compiled binary as a function of forwarded stdin. -/
  run_behavior : Option String → ProcOutcome
  compile_elapsed_ms : Nat
  run_elapsed_ms : Nat
  /-- `start.elapsed().as_millis()` where the returned output is built. -/
  elapsed_ms : Nat

/-- Observable scratch/process side effects of one call. The scratch
directory path itself (`temp_dir/sandbox_{timestamp}`) is not tracked,
only whether it was created and whether it still exists on return. -/
structure RunTrace where
  dir_created : Bool := false
  dir_exists : Bool := false
  compiler_invoked : Bool := false
  executor_invoked : Bool := false
deriving DecidableEq, Repr

/-- `CCompiler::compile_and_run_with_input` (mod.rs lines 220-332),
paired with the trace of its scratch-directory / process side effects. -/
def compile_and_run_with_input (self : CCompiler) (env : ExecEnv)
    (source : String) (stdin_input : Option String) :
    Except String ExecutionOutput × RunTrace :=
  -- Check code size limit
  if source.utf8ByteSize > self.max_code_size then
    (Except.ok { compile_error := some ("Code size exceeds maximum limit of "
                   ++ toString self.max_code_size ++ " bytes"),
                 execution_time_ms := env.elapsed_ms }, {})
  else
    -- Only check dangerous functions in fallback mode
    -- (seccomp and bwrap block them at OS level)
    match (if self.sandbox_mode = SandboxMode.Fallback
           then check_dangerous_functions source else Except.ok ()) with
    | Except.error e =>
      (Except.ok { compile_error := some e, execution_time_ms := env.elapsed_ms }, {})
    | Except.ok _ =>
      -- Create working directory
      match env.create_dir_result with
      | some e => (Except.error ("Failed to create sandbox dir: " ++ e), {})
      | none =>
        match env.write_result with
        | some e =>
          (Except.error ("Failed to write source: " ++ e),
           { dir_created := true, dir_exists := true })
        | none =>
          -- COMPILE PHASE: just run gcc directly (not sandboxed)
          match fallback_execute env.compile_behavior self.timeout_secs
                  env.compile_elapsed_ms with
          | Except.error e =>
            (Except.error e,
             { dir_created := true, dir_exists := true, compiler_invoked := true })
          | Except.ok compile_result =>
            if compile_result.exit_code ≠ some 0 then
              (Except.ok { compile_error := some compile_result.stderr,
                           execution_time_ms := env.elapsed_ms },
               { dir_created := true, dir_exists := false, compiler_invoked := true })
            else
              -- EXECUTION PHASE - dispatch on the sandbox mode; the inner
              -- Option encodes the early `return Err` of the
              -- Seccomp-on-non-seccomp-platform arm (mod.rs lines 295-299).
              match (match self.sandbox_mode with
                     | SandboxMode.Seccomp =>
                       if env.seccomp_platform then
                         some (seccomp_execute env.run_behavior stdin_input
                                 self.timeout_secs env.run_elapsed_ms)
                       else none
                     | SandboxMode.Bubblewrap =>
                       some (sandbox_execute self.sandbox_config env.run_behavior
                               env.run_elapsed_ms)
                     | SandboxMode.Fallback =>
                       some (fallback_execute env.run_behavior self.timeout_secs
                               env.run_elapsed_ms)) with
              | none =>
                (Except.error "Seccomp not available on this platform",
                 { dir_created := true, dir_exists := true, compiler_invoked := true })
              | some (Except.error e) =>
                (Except.error e,
                 { dir_created := true, dir_exists := true,
                   compiler_invoked := true, executor_invoked := true })
              | some (Except.ok run_result) =>
                -- Cleanup, then assemble the output
                (Except.ok { stdout := run_result.stdout,
                             stderr := run_result.stderr,
                             exit_code := run_result.exit_code,
                             execution_time_ms := env.elapsed_ms,
                             timed_out := run_result.timed_out,
                             runtime_error :=
                               if run_result.timed_out
                               then some "Execution timed out" else none },
                 { dir_created := true, dir_exists := false,
                   compiler_invoked := true, executor_invoked := true })

/-- `CCompiler::compile_and_run` (mod.rs lines 214-216). -/
def compile_and_run (self : CCompiler) (env : ExecEnv) (source : String) :
    Except String ExecutionOutput × RunTrace :=
  compile_and_run_with_input self env source none

/-! ### Harness generator (src/src/levels/harness.rs)

`serde_json::Value` is embedded as `Json`. A JSON number is one of the
three serde arms: an integer arm carrying the mathematical value (serde
stores i64 or u64; `as_i64` succeeds exactly when the value fits in i64,
`as_u64` exactly when it is a non-negative value below 2^64), or a float
arm. Claim proofs never depend on float values, so the float arm carries
its `\x7b:.6\x7d`-formatted rendering directly. -/

inductive Json where
  | null
  | bool (b : Bool)
  /-- serde integer arm (i64 or u64), as a mathematical integer. -/
  | intNum (n : Int)
  /-- serde f64 arm, represented by its fixed-6-decimals rendering. -/
  | floatNum (rendered : String)
  | str (s : String)
  | arr (elems : List Json)
  | obj (fields : List (String × Json))

/-- `Value::as_i64`. -/
def Json.as_i64 : Json → Option Int
  | Json.intNum n => if -(2 ^ 63) ≤ n ∧ n < 2 ^ 63 then some n else none
  | _ => none

/-- `Value::as_u64`. -/
def Json.as_u64 : Json → Option Int
  | Json.intNum n => if 0 ≤ n ∧ n < 2 ^ 64 then some n else none
  | _ => none

/-- `Value::as_f64` followed by `format!("\x7b:.6\x7d", n)`, which is all
the harness does with a float. An integer arm converts exactly for the
magnitudes used in test cases. -/
def Json.as_f64_fmt6 : Json → Option String
  | Json.intNum n => some (toString n ++ ".000000")
  | Json.floatNum r => some r
  | _ => none

/-- `Value::as_str`. -/
def Json.as_str : Json → Option String
  | Json.str s => some s
  | _ => none

/-- `Value::as_array`. -/
def Json.as_array : Json → Option (List Json)
  | Json.arr l => some l
  | _ => none

/-- Rendering standing in for Rust's `\x7b:?\x7d` Debug formatting of a
`serde_json::Value` inside harness error messages. Claim proofs only ever
depend on which arm errors, never on this text. -/
def jsonDebug : Json → String
  | Json.null => "Null"
  | Json.bool b => "Bool(" ++ toString b ++ ")"
  | Json.intNum n => "Number(" ++ toString n ++ ")"
  | Json.floatNum r => "Number(" ++ r ++ ")"
  | Json.str s => "String(\"" ++ s ++ "\")"
  | Json.arr _ => "Array"
  | Json.obj _ => "Object"

/-- `FunctionParameter` (levels/loader.rs lines 34-38). -/
structure FunctionParameter where
  name : String
  param_type : String

/-- `FunctionSignature` (levels/loader.rs lines 27-31). -/
structure FunctionSignature where
  name : String
  return_type : String
  parameters : List FunctionParameter

/-- `TestCase` (levels/loader.rs lines 42-47). -/
structure TestCase where
  input : List Json
  expected : String
  sample : Bool

/-- `escape_c_string` (harness.rs lines 167-173). -/
def escape_c_string (s : String) : String :=
  ((((s.replace "\\" "\\\\").replace "\"" "\\\"").replace "\n" "\\n").replace
    "\t" "\\t").replace "\r" "\\r"

/-- Rust's `collect::<Result<Vec<_>, _>>()` over a mapped iterator:
stops at the first error, otherwise returns all results in order. -/
def collect_except {α β : Type} (f : α → Except String β) : List α → Except String (List β)
  | [] => Except.ok []
  | a :: rest =>
    match f a with
    | Except.error e => Except.error e
    | Except.ok b =>
      match collect_except f rest with
      | Except.error e => Except.error e
      | Except.ok bs => Except.ok (b :: bs)

/-- The element closure inside the array arm of `format_single_arg`
(harness.rs lines 74-80): each array element must be an integer. -/
def format_array_element (v : Json) : Except String String :=
  match v.as_i64 with
  | some n => Except.ok (toString n)
  | none => Except.error ("Array element must be integer: " ++ jsonDebug v)

/-- `format_single_arg` (harness.rs lines 62-127): format one argument
value for the generated call, based on the declared parameter type. -/
def format_single_arg (param_type : String) (value : Json) : Except String String :=
  -- Check for pointer types first
  if str_contains param_type "int*" || str_contains param_type "int *" then
    -- Special handling for NULL
    if value.as_str = some "NULL" then
      Except.ok "NULL"
    else
      -- Handle array input -> create compound literal array and pass pointer
      match value.as_array with
      | some arr =>
        match collect_except format_array_element arr with
        | Except.error e => Except.error e
        | Except.ok elements =>
          Except.ok ("(int[])\x7b " ++ String.intercalate ", " elements ++ " \x7d")
      | none =>
        -- Single value -> create compound literal pointer
        match value.as_i64 with
        | some n => Except.ok ("&(int)\x7b" ++ toString n ++ "\x7d")
        | none =>
          Except.error ("Expected integer, array, or \x27NULL\x27, got "
            ++ jsonDebug value)
  else if param_type = "int" ∨ param_type = "long" ∨ param_type = "short" then
    match value.as_i64 with
    | some n => Except.ok (toString n)
    | none => Except.error ("Expected integer, got " ++ jsonDebug value)
  else if param_type = "unsigned int" ∨ param_type = "unsigned long"
      ∨ param_type = "size_t" then
    match value.as_u64 with
    | some n => Except.ok (toString n)
    | none => Except.error ("Expected unsigned integer, got " ++ jsonDebug value)
  else if param_type = "float" ∨ param_type = "double" then
    match value.as_f64_fmt6 with
    | some r => Except.ok r
    | none => Except.error ("Expected float, got " ++ jsonDebug value)
  else if param_type = "char" then
    match value.as_str with
    | some s =>
      -- Rust: s.len() is the byte length; the char emitted is
      -- s.chars().next(), which for a 1-byte string is s itself.
      if s.utf8ByteSize ≠ 1 then
        Except.error ("Expected single char, got \x27" ++ s ++ "\x27")
      else
        Except.ok ("\x27" ++ s ++ "\x27")
    | none => Except.error ("Expected char string, got " ++ jsonDebug value)
  else if str_contains param_type "char*" || str_contains param_type "char *"
      || param_type == "string" then
    match value.as_str with
    | some s => Except.ok ("\"" ++ escape_c_string s ++ "\"")
    | none => Except.error ("Expected string, got " ++ jsonDebug value)
  else
    Except.error ("Unsupported parameter type: " ++ param_type)

/-- `format_call_args` (harness.rs lines 40-59). -/
def format_call_args (params : List FunctionParameter) (input : List Json) :
    Except String String :=
  if params.length ≠ input.length then
    Except.error ("Parameter count mismatch: expected " ++ toString params.length
      ++ ", got " ++ toString input.length)
  else
    match collect_except (fun pv => format_single_arg pv.1.param_type pv.2)
        (params.zip input) with
    | Except.error e => Except.error e
    | Except.ok args => Except.ok (String.intercalate ", " args)

/-- `get_print_format` (harness.rs lines 130-143). -/
def get_print_format (return_type : String) : Except String String :=
  if return_type = "int" ∨ return_type = "short" then Except.ok "%d"
  else if return_type = "long" then Except.ok "%ld"
  else if return_type = "unsigned int" then Except.ok "%u"
  else if return_type = "unsigned long" ∨ return_type = "size_t" then Except.ok "%lu"
  else if return_type = "float" then Except.ok "%f"
  else if return_type = "double" then Except.ok "%lf"
  else if return_type = "char" then Except.ok "%c"
  else if return_type = "char*" ∨ return_type = "char *" ∨ return_type = "string" then
    Except.ok "%s"
  else if return_type = "void" then Except.ok "" -- No print for void
  else Except.error ("Unsupported return type: " ++ return_type)

/-- `generate_result_decl` (harness.rs lines 146-155). -/
def generate_result_decl (signature : FunctionSignature) (call_args : String) :
    String :=
  if signature.return_type = "void" then
    signature.name ++ "(" ++ call_args ++ ");"
  else
    signature.return_type ++ " result = " ++ signature.name
      ++ "(" ++ call_args ++ ");"

/-- `generate_print_stmt` (harness.rs lines 158-164). -/
def generate_print_stmt (return_type : String) (fmt : String) : String :=
  if return_type = "void" then
    "printf(\"done\\n\");"
  else
    "printf(\"" ++ fmt ++ "\\n\", result);"

/-- `generate_harness` (harness.rs lines 9-37). -/
def generate_harness (user_code : String) (signature : FunctionSignature)
    (test_case : TestCase) : Except String String :=
  match format_call_args signature.parameters test_case.input with
  | Except.error e => Except.error e
  | Except.ok call_args =>
    match get_print_format signature.return_type with
    | Except.error e => Except.error e
    | Except.ok print_format =>
      Except.ok ("#include <stdio.h>\n#include <stdlib.h>\n#include <string.h>\n\n"
        ++ "// User\x27s function\n" ++ user_code ++ "\n\nint main() \x7b\n    "
        ++ generate_result_decl signature call_args ++ "\n    "
        ++ generate_print_stmt signature.return_type print_format
        ++ "\n    return 0;\n\x7d\n")

/-! ### Helper lemmas and fixtures -/

/-- The clone binding survives the final insert. -/
lemma rules_lookup_clone :
    rules_lookup build_seccomp_filter.rules SYS_clone = some [clone_thread_rule] := by
  decide

lemma rules_lookup_clone3 :
    rules_lookup build_seccomp_filter.rules SYS_clone3 = some [] := by decide

lemma rules_lookup_socket :
    rules_lookup build_seccomp_filter.rules SYS_socket = none := by decide

lemma rules_lookup_connect :
    rules_lookup build_seccomp_filter.rules SYS_connect = none := by decide

lemma rules_lookup_accept :
    rules_lookup build_seccomp_filter.rules SYS_accept = none := by decide

lemma rules_lookup_ptrace :
    rules_lookup build_seccomp_filter.rules SYS_ptrace = none := by decide

lemma rules_lookup_fork :
    rules_lookup build_seccomp_filter.rules SYS_fork = none := by decide

lemma rules_lookup_vfork :
    rules_lookup build_seccomp_filter.rules SYS_vfork = none := by decide

/-- A syscall with no binding in the rule map gets the mismatch action. -/
lemma filter_action_of_lookup_none (f : SeccompFilter) (syscall : Int)
    (args : Nat → Nat) (h : rules_lookup f.rules syscall = none) :
    filter_action f syscall args = f.mismatch_action := by
  unfold filter_action
  rw [h]

/-- The clone syscall is allowed exactly when CLONE_THREAD is set. -/
lemma filter_action_clone_iff (args : Nat → Nat) :
    filter_action build_seccomp_filter SYS_clone args = SeccompAction.Allow ↔
      args 0 &&& 0x10000 = 0x10000 := by
  unfold filter_action
  rw [rules_lookup_clone]
  have hm : (0x10000 : Nat) &&& 0x10000 = 0x10000 := by decide
  simp only [rule_matches, condition_matches, clone_thread_rule, List.any_cons,
    List.any_nil, Bool.or_false, List.all_cons, List.all_nil, Bool.and_true, hm]
  by_cases h : args 0 &&& 0x10000 = 0x10000
  · simp [h]
    rfl
  · simp [h]
    decide

/-- Concrete compiler fixtures (CCompiler::new for each mode). -/
def cc_fallback : CCompiler := CCompiler.new "/tmp" SandboxMode.Fallback

def cc_bwrap : CCompiler := CCompiler.new "/tmp" SandboxMode.Bubblewrap

def cc_seccomp : CCompiler := CCompiler.new "/tmp" SandboxMode.Seccomp

/-- A benign effect environment: everything succeeds. -/
def env_ok : ExecEnv :=
  { seccomp_platform := true,
    create_dir_result := none,
    write_result := none,
    compile_behavior := fun _ => ProcOutcome.completed (some 0) "" "",
    run_behavior := fun _ => ProcOutcome.completed (some 0) "hello\n" "",
    compile_elapsed_ms := 12,
    run_elapsed_ms := 3,
    elapsed_ms := 20 }

/-- Environment in which spawning the compiled binary fails. -/
def env_run_spawn_fails : ExecEnv :=
  { env_ok with
    run_behavior := fun _ => ProcOutcome.spawnFailed "No such file or directory (os error 2)" }

/-- Environment whose child echoes the forwarded stdin to stdout. -/
def env_echo : ExecEnv :=
  { env_ok with
    run_behavior := fun i =>
      ProcOutcome.completed (some 0) (match i with | some s => s | none => "") "" }

/-! ### C1 -/

/-- C1: `detect_sandbox_mode`, called once at startup, selects the mode in
strict preference order: Seccomp when syscall filtering is supported on
this kernel/build; otherwise Bubblewrap when the bwrap binary is present
and the live PID-namespace smoke test succeeds; otherwise Fallback
unconditionally on macOS; otherwise Fallback only when
ALLOW_INSECURE_SANDBOX=1 is set; in every remaining case the startup is
fatal (`none`, the panic arm) — Fallback is never selected silently off
macOS without the explicit override. -/
theorem detect_mode_strict_preference_fail_closed :
    ∀ e : DetectEnv,
      (e.seccomp_supported = true →
        detect_sandbox_mode e = some SandboxMode.Seccomp) ∧
      (e.seccomp_supported = false → e.bwrap_available = true →
        e.bwrap_namespaces_work = true →
        detect_sandbox_mode e = some SandboxMode.Bubblewrap) ∧
      (e.seccomp_supported = false →
        (e.bwrap_available && e.bwrap_namespaces_work) = false →
        e.target_macos = true →
        detect_sandbox_mode e = some SandboxMode.Fallback) ∧
      (e.seccomp_supported = false →
        (e.bwrap_available && e.bwrap_namespaces_work) = false →
        e.target_macos = false →
        (detect_sandbox_mode e = some SandboxMode.Fallback ↔
          e.allow_insecure_sandbox = true)) ∧
      (e.seccomp_supported = false →
        (e.bwrap_available && e.bwrap_namespaces_work) = false →
        e.target_macos = false → e.allow_insecure_sandbox = false →
        detect_sandbox_mode e = none) ∧
      (detect_sandbox_mode e = some SandboxMode.Fallback →
        e.target_macos = true ∨ e.allow_insecure_sandbox = true) := by
  intro e
  obtain ⟨s, ba, bw, mac, ai⟩ := e
  cases s <;> cases ba <;> cases bw <;> cases mac <;> cases ai <;>
    simp [detect_sandbox_mode]

/-- Witness for C1 at concrete probe environments. -/
theorem detect_mode_strict_preference_fail_closed_witness :
    detect_sandbox_mode ⟨false, false, false, false, false⟩ = none ∧
    detect_sandbox_mode ⟨true, false, false, false, false⟩ = some SandboxMode.Seccomp := by
  constructor
  · exact (detect_mode_strict_preference_fail_closed
      ⟨false, false, false, false, false⟩).2.2.2.2.1 rfl rfl rfl rfl
  · exact (detect_mode_strict_preference_fail_closed
      ⟨true, false, false, false, false⟩).1 rfl

/-! ### C2 -/

/-- C2: in the seccomp filter, clone is allowed exactly when the
CLONE_THREAD flag (mask 0x10000, masked-equality on the flags argument)
is set, so pthread creation passes while fork-style use of clone is
killed; the fork syscall itself is always killed (it is outside the
allow-list); and under the Fallback mode any source containing the fork
function name is rejected by the textual denylist as a compile-time
rejection, with no compiler invocation. -/
theorem clone_thread_flag_and_fork_rejection :
    (∀ args : Nat → Nat,
      filter_action build_seccomp_filter SYS_clone args = SeccompAction.Allow ↔
        args 0 &&& 0x10000 = 0x10000) ∧
    (∀ args : Nat → Nat,
      filter_action build_seccomp_filter SYS_fork args = SeccompAction.KillProcess) ∧
    (∀ (self : CCompiler) (env : ExecEnv) (source : String) (stdin_input : Option String),
      self.sandbox_mode = SandboxMode.Fallback →
      str_contains source "fork(" = true →
      (∃ e, check_dangerous_functions source = Except.error e) ∧
      (∃ msg, (compile_and_run_with_input self env source stdin_input).1 =
          Except.ok { compile_error := some msg,
                      execution_time_ms := env.elapsed_ms } ∧
        (compile_and_run_with_input self env source stdin_input).2.compiler_invoked = false)) := by
  refine ⟨filter_action_clone_iff, ?_, ?_⟩
  · intro args
    exact filter_action_of_lookup_none _ _ _ rules_lookup_fork
  · intro self env source stdin_input hmode hfork
    have hck : ∃ e, check_dangerous_functions source = Except.error e := by
      have hs : (DANGEROUS_FUNCS.find? (fun f => str_contains source f)).isSome := by
        rw [List.find?_isSome]
        exact ⟨"fork(", by simp [DANGEROUS_FUNCS], hfork⟩
      obtain ⟨f, hf⟩ := Option.isSome_iff_exists.mp hs
      refine ⟨"Dangerous function \x27" ++ trim_end_matches f '('
        ++ "\x27 is not allowed", ?_⟩
      unfold check_dangerous_functions
      rw [hf]
    refine ⟨hck, ?_⟩
    obtain ⟨e, he⟩ := hck
    unfold compile_and_run_with_input
    by_cases hsz : source.utf8ByteSize > self.max_code_size
    · rw [if_pos hsz]
      exact ⟨_, rfl, rfl⟩
    · rw [if_neg hsz, hmode]
      simp only [if_pos rfl, he]
      exact ⟨e, rfl, rfl⟩

/-- Witness for C2: thread-flagged clone is allowed, fork is killed, and
a fork-calling source is denylisted. -/
theorem clone_thread_flag_and_fork_rejection_witness :
    filter_action build_seccomp_filter SYS_clone (fun _ => 0x10000) = SeccompAction.Allow ∧
    filter_action build_seccomp_filter SYS_fork (fun _ => 0) = SeccompAction.KillProcess ∧
    (∃ msg, (compile_and_run_with_input cc_fallback env_ok
        "int main() \x7b fork(); \x7d" none).1 =
      Except.ok { compile_error := some msg,
                  execution_time_ms := env_ok.elapsed_ms }) := by
  refine ⟨?_, clone_thread_flag_and_fork_rejection.2.1 _, ?_⟩
  · exact (clone_thread_flag_and_fork_rejection.1 (fun _ => 0x10000)).mpr (by decide)
  · obtain ⟨msg, hmsg, -⟩ := (clone_thread_flag_and_fork_rejection.2.2 cc_fallback env_ok
      "int main() \x7b fork(); \x7d" none rfl (by decide)).2
    exact ⟨msg, hmsg⟩

/-! ### C3 -/

/-- C3 counterexample: the allow-list is not free of new-process-creation
syscalls. `clone3` - the modern process-creation syscall - is present in
the allow-list with an empty (unconditional) rule list, so a `clone3`
invocation whose flags do not contain CLONE_THREAD (a fork-style process
creation, flags = 0 here) is allowed by the filter rather than killed. -/
theorem allowlist_contains_unconditional_clone3 :
    rules_lookup build_seccomp_filter.rules SYS_clone3 = some [] ∧
    filter_action build_seccomp_filter SYS_clone3 (fun _ => 0) = SeccompAction.Allow :=
  ⟨rules_lookup_clone3, by decide⟩

/-- C3 (amended): the filter is deny-by-default with default action
kill-the-process, so every syscall outside the allow-list (in particular
the networking syscalls, ptrace, fork and vfork, which are never present
in it) kills the untrusted process; the legacy clone syscall is in the
allow-list restricted to thread creation by the CLONE_THREAD
masked-equality condition; however the allow-list also contains execve,
execveat and clone3 unconditionally, so new-execution-context creation is
not entirely absent from it. -/
theorem filter_default_kill_allowlist_amended :
    build_seccomp_filter.mismatch_action = SeccompAction.KillProcess ∧
    (∀ (syscall : Int) (args : Nat → Nat),
      rules_lookup build_seccomp_filter.rules syscall = none →
      filter_action build_seccomp_filter syscall args = SeccompAction.KillProcess) ∧
    (∀ args, filter_action build_seccomp_filter SYS_socket args = SeccompAction.KillProcess) ∧
    (∀ args, filter_action build_seccomp_filter SYS_connect args = SeccompAction.KillProcess) ∧
    (∀ args, filter_action build_seccomp_filter SYS_accept args = SeccompAction.KillProcess) ∧
    (∀ args, filter_action build_seccomp_filter SYS_ptrace args = SeccompAction.KillProcess) ∧
    (∀ args, filter_action build_seccomp_filter SYS_fork args = SeccompAction.KillProcess) ∧
    (∀ args, filter_action build_seccomp_filter SYS_vfork args = SeccompAction.KillProcess) ∧
    (∀ args, filter_action build_seccomp_filter SYS_clone args = SeccompAction.Allow ↔
      args 0 &&& 0x10000 = 0x10000) ∧
    rules_lookup build_seccomp_filter.rules SYS_execve = some [] ∧
    rules_lookup build_seccomp_filter.rules SYS_execveat = some [] ∧
    rules_lookup build_seccomp_filter.rules SYS_clone3 = some [] := by
  refine ⟨rfl, ?_, ?_, ?_, ?_, ?_, ?_, ?_, filter_action_clone_iff,
    by decide, by decide, rules_lookup_clone3⟩
  · intro syscall args h
    exact filter_action_of_lookup_none _ _ _ h
  · exact fun args => filter_action_of_lookup_none _ _ _ rules_lookup_socket
  · exact fun args => filter_action_of_lookup_none _ _ _ rules_lookup_connect
  · exact fun args => filter_action_of_lookup_none _ _ _ rules_lookup_accept
  · exact fun args => filter_action_of_lookup_none _ _ _ rules_lookup_ptrace
  · exact fun args => filter_action_of_lookup_none _ _ _ rules_lookup_fork
  · exact fun args => filter_action_of_lookup_none _ _ _ rules_lookup_vfork

/-- Witness for the amended C3 at concrete syscalls/arguments. -/
theorem filter_default_kill_allowlist_amended_witness :
    filter_action build_seccomp_filter 9999 (fun _ => 0) = SeccompAction.KillProcess ∧
    filter_action build_seccomp_filter SYS_clone (fun _ => 0x10000) = SeccompAction.Allow := by
  constructor
  · exact filter_default_kill_allowlist_amended.2.1 9999 (fun _ => 0) (by decide)
  · exact (filter_default_kill_allowlist_amended.2.2.2.2.2.2.2.2.1
      (fun _ => 0x10000)).mpr (by decide)

/-! ### C4 -/

/-- C4 counterexample: a call that creates the scratch directory,
compiles successfully, and then fails to spawn the executor returns an
error with the scratch directory still in existence - the cleanup is
skipped on the early-return error paths. -/
theorem scratch_dir_leak_on_executor_spawn_failure :
    (compile_and_run_with_input cc_fallback env_run_spawn_fails
        "int main() \x7b return 0; \x7d" none).2.dir_created = true ∧
    (compile_and_run_with_input cc_fallback env_run_spawn_fails
        "int main() \x7b return 0; \x7d" none).2.dir_exists = true ∧
    (compile_and_run_with_input cc_fallback env_run_spawn_fails
        "int main() \x7b return 0; \x7d" none).1 =
      Except.error "Failed to execute: No such file or directory (os error 2)" :=
  ⟨rfl, rfl, rfl⟩

/-- C4 (amended): on every path on which `compile_and_run_with_input`
returns an `ExecutionOutput` (success, size or denylist rejection,
compile error, runtime completion, timeout) the scratch directory no
longer exists on return; on the paths that return an error (scratch
creation failure, source-write failure, compiler or executor spawn
failure or panic, seccomp unavailable) the directory is left exactly as
the call got to it - in particular it still exists whenever it was
created. -/
theorem scratch_dir_removed_on_ok_paths :
    ∀ (self : CCompiler) (env : ExecEnv) (source : String) (stdin_input : Option String),
      (∀ out, (compile_and_run_with_input self env source stdin_input).1 = Except.ok out →
        (compile_and_run_with_input self env source stdin_input).2.dir_exists = false) ∧
      (∀ e, (compile_and_run_with_input self env source stdin_input).1 = Except.error e →
        (compile_and_run_with_input self env source stdin_input).2.dir_exists =
          (compile_and_run_with_input self env source stdin_input).2.dir_created) := by
  intro self env source stdin_input
  obtain ⟨⟨r1, r2⟩, hr⟩ :
      ∃ r, compile_and_run_with_input self env source stdin_input = r := ⟨_, rfl⟩
  rw [hr]
  unfold compile_and_run_with_input at hr
  constructor
  · intro out h
    repeat' split at hr
    all_goals injection hr with hr1 hr2
    all_goals subst hr1
    all_goals subst hr2
    all_goals simp_all
  · intro e h
    repeat' split at hr
    all_goals injection hr with hr1 hr2
    all_goals subst hr1
    all_goals subst hr2
    all_goals simp_all

/-- Witness for the amended C4: a successful run ends with the scratch
directory removed. -/
theorem scratch_dir_removed_on_ok_paths_witness :
    (compile_and_run_with_input cc_fallback env_ok
        "int main() \x7b return 0; \x7d" none).2.dir_exists = false := by
  refine (scratch_dir_removed_on_ok_paths cc_fallback env_ok
      "int main() \x7b return 0; \x7d" none).1
    { stdout := "hello\n", stderr := "", exit_code := some 0,
      execution_time_ms := env_ok.elapsed_ms, timed_out := false,
      runtime_error := none } ?_
  rfl

/-! ### C5 -/

/-- C5: for every source whose byte length exceeds the fixed ceiling
(`max_code_size` = 10240 bytes, as set by `CCompiler::new`),
`compile_and_run_with_input` returns an output whose `compile_error` is
the size-limit message, without creating a scratch directory, invoking
the compiler, or spawning any executor process. -/
theorem size_limit_immediate_reject :
    ∀ (temp_dir : String) (mode : SandboxMode) (env : ExecEnv) (source : String)
      (stdin_input : Option String),
      source.utf8ByteSize > 10240 →
      (compile_and_run_with_input (CCompiler.new temp_dir mode) env source stdin_input).1 =
        Except.ok { compile_error := some "Code size exceeds maximum limit of 10240 bytes",
                    execution_time_ms := env.elapsed_ms } ∧
      (compile_and_run_with_input (CCompiler.new temp_dir mode) env source
          stdin_input).2.dir_created = false ∧
      (compile_and_run_with_input (CCompiler.new temp_dir mode) env source
          stdin_input).2.compiler_invoked = false ∧
      (compile_and_run_with_input (CCompiler.new temp_dir mode) env source
          stdin_input).2.executor_invoked = false := by
  intro temp_dir mode env source stdin_input h
  unfold compile_and_run_with_input
  rw [show (CCompiler.new temp_dir mode).max_code_size = 10240 from rfl]
  rw [if_pos h]
  exact ⟨rfl, rfl, rfl, rfl⟩

/-- Byte size of a replicated character list. -/
lemma utf8Len_replicate (c : Char) :
    ∀ n, String.utf8Len (List.replicate n c) = n * c.utf8Size
  | 0 => by simp
  | n + 1 => by
    rw [List.replicate_succ, String.utf8Len_cons, utf8Len_replicate c n]
    ring

/-- A 10241-byte source, one over the ceiling. -/
def big_source : String := String.mk (List.replicate 10241 'a')

lemma big_source_utf8ByteSize : big_source.utf8ByteSize = 10241 := by
  rw [big_source, String.utf8ByteSize_mk, utf8Len_replicate]
  norm_num [show ('a').utf8Size = 1 by decide]

/-- Witness for C5 at a concrete oversized source. -/
theorem size_limit_immediate_reject_witness :
    (compile_and_run_with_input (CCompiler.new "/tmp" SandboxMode.Fallback) env_ok
        big_source none).1 =
      Except.ok { compile_error := some "Code size exceeds maximum limit of 10240 bytes",
                  execution_time_ms := env_ok.elapsed_ms } ∧
    (compile_and_run_with_input (CCompiler.new "/tmp" SandboxMode.Fallback) env_ok
        big_source none).2.compiler_invoked = false := by
  have h : big_source.utf8ByteSize > 10240 := by
    rw [big_source_utf8ByteSize]
    norm_num
  obtain ⟨h1, -, h3, -⟩ :=
    size_limit_immediate_reject "/tmp" SandboxMode.Fallback env_ok big_source none h
  exact ⟨h1, h3⟩

/-! ### C6 -/

/-- C6: whenever `compile_and_run_with_input` returns an output with
`compile_error` set, every execution field holds its default value:
empty stdout and stderr, no runtime error, no exit code, and
`timed_out = false` - compilation and execution are mutually exclusive
phases. -/
theorem compile_error_excludes_execution_fields :
    ∀ (self : CCompiler) (env : ExecEnv) (source : String) (stdin_input : Option String)
      (out : ExecutionOutput),
      (compile_and_run_with_input self env source stdin_input).1 = Except.ok out →
      out.compile_error.isSome = true →
      out.stdout = "" ∧ out.stderr = "" ∧ out.runtime_error = none ∧
        out.exit_code = none ∧ out.timed_out = false := by
  intro self env source stdin_input out h hsome
  unfold compile_and_run_with_input at h
  repeat' split at h
  all_goals first
    | (injection h with h1
       subst h1
       simp_all)
    | injection h

/-- Witness for C6 on a concrete denylist rejection. -/
theorem compile_error_excludes_execution_fields_witness :
    (compile_and_run_with_input cc_fallback env_ok "int main() \x7b system(\"ls\"); \x7d"
        none).1 =
      Except.ok { compile_error := some "Dangerous function \x27system\x27 is not allowed",
                  execution_time_ms := env_ok.elapsed_ms } ∧
    ({ compile_error := some "Dangerous function \x27system\x27 is not allowed",
       execution_time_ms := env_ok.elapsed_ms } : ExecutionOutput).stdout = "" ∧
    ({ compile_error := some "Dangerous function \x27system\x27 is not allowed",
       execution_time_ms := env_ok.elapsed_ms } : ExecutionOutput).timed_out = false := by
  have h1 : (compile_and_run_with_input cc_fallback env_ok
      "int main() \x7b system(\"ls\"); \x7d" none).1 =
      Except.ok { compile_error := some "Dangerous function \x27system\x27 is not allowed",
                  execution_time_ms := env_ok.elapsed_ms } := rfl
  obtain ⟨hs, -, -, -, ht⟩ := compile_error_excludes_execution_fields cc_fallback env_ok
    "int main() \x7b system(\"ls\"); \x7d" none _ h1 rfl
  exact ⟨h1, hs, ht⟩

/-! ### C7 -/

/-- C7: once a program compiled successfully, under any executor mode:
if the child completes within the timeout with a successful exit the
output has `exit_code = some 0` and `timed_out = false` (and no runtime
error); if the wall-clock timeout elapses first the output has
`timed_out = true`, no exit code, and the synthetic runtime error
"Execution timed out" - built from the executor's synthetic timeout
result rather than from waiting on the child. -/
theorem executor_success_and_timeout_results :
    ∀ (self : CCompiler) (env : ExecEnv) (source : String) (stdin_input : Option String)
      (cout cerr : String),
      (self.sandbox_mode = SandboxMode.Seccomp → env.seccomp_platform = true) →
      source.utf8ByteSize ≤ self.max_code_size →
      (self.sandbox_mode = SandboxMode.Fallback →
        check_dangerous_functions source = Except.ok ()) →
      env.create_dir_result = none →
      env.write_result = none →
      env.compile_behavior none = ProcOutcome.completed (some 0) cout cerr →
      ((∀ i, env.run_behavior i = ProcOutcome.timedOut) →
        ∃ out, (compile_and_run_with_input self env source stdin_input).1 = Except.ok out ∧
          out.timed_out = true ∧ out.exit_code = none ∧
          out.runtime_error = some "Execution timed out") ∧
      (∀ rout rerr : String,
        (∀ i, env.run_behavior i = ProcOutcome.completed (some 0) rout rerr) →
        ∃ out, (compile_and_run_with_input self env source stdin_input).1 = Except.ok out ∧
          out.exit_code = some 0 ∧ out.timed_out = false ∧ out.runtime_error = none) := by
  intro self env source stdin_input cout cerr hplat hsz hck hcd hw hcomp
  have hnot : ¬ source.utf8ByteSize > self.max_code_size := by omega
  constructor
  · intro hrun
    refine ⟨{ stdout := "", stderr := "Execution timed out", compile_error := none,
              runtime_error := some "Execution timed out", exit_code := none,
              execution_time_ms := env.elapsed_ms, timed_out := true },
            ?_, rfl, rfl, rfl⟩
    unfold compile_and_run_with_input
    cases hmode : self.sandbox_mode
    · have hp := hplat hmode
      simp [hnot, hcd, hw, hp, fallback_execute, seccomp_execute, hcomp, hrun]
    · simp [hnot, hcd, hw, fallback_execute, sandbox_execute, hcomp, hrun]
    · have hc := hck hmode
      simp [hnot, hcd, hw, hc, fallback_execute, hcomp, hrun]
  · intro rout rerr hrun
    refine ⟨{ stdout := rout, stderr := rerr, compile_error := none,
              runtime_error := none, exit_code := some 0,
              execution_time_ms := env.elapsed_ms, timed_out := false },
            ?_, rfl, rfl, rfl⟩
    unfold compile_and_run_with_input
    cases hmode : self.sandbox_mode
    · have hp := hplat hmode
      simp [hnot, hcd, hw, hp, fallback_execute, seccomp_execute, hcomp, hrun]
    · simp [hnot, hcd, hw, fallback_execute, sandbox_execute, hcomp, hrun]
    · have hc := hck hmode
      simp [hnot, hcd, hw, hc, fallback_execute, hcomp, hrun]

/-- Environment whose child never finishes (infinite loop hitting the
timeout). -/
def env_loop : ExecEnv :=
  { env_ok with run_behavior := fun _ => ProcOutcome.timedOut }

/-- Witness for C7: a concrete run that completes and a concrete run
that times out. -/
theorem executor_success_and_timeout_results_witness :
    (∃ out, (compile_and_run_with_input cc_seccomp env_loop
        "int main() \x7b for(;;); \x7d" none).1 = Except.ok out ∧
      out.timed_out = true ∧ out.exit_code = none ∧
      out.runtime_error = some "Execution timed out") ∧
    (∃ out, (compile_and_run_with_input cc_seccomp env_ok
        "int main() \x7b return 0; \x7d" none).1 = Except.ok out ∧
      out.exit_code = some 0 ∧ out.timed_out = false ∧ out.runtime_error = none) := by
  constructor
  · exact (executor_success_and_timeout_results cc_seccomp env_loop
      "int main() \x7b for(;;); \x7d" none "" "" (fun _ => rfl) (by decide)
      (fun hm => by cases hm) rfl rfl rfl).1 (fun i => rfl)
  · exact (executor_success_and_timeout_results cc_seccomp env_ok
      "int main() \x7b return 0; \x7d" none "" "" (fun _ => rfl) (by decide)
      (fun hm => by cases hm) rfl rfl rfl).2 "hello\n" "" (fun i => rfl)

/-! ### C8 -/

/-- Collecting `format_array_element` over integer elements succeeds
with their decimal renderings. -/
lemma collect_format_array_element_ok :
    ∀ ns : List Int, (∀ n ∈ ns, -(2 ^ 63) ≤ n ∧ n < 2 ^ 63) →
      collect_except format_array_element (ns.map Json.intNum) =
        Except.ok (ns.map toString)
  | [], _ => rfl
  | a :: t, h => by
    have ha := h a (by simp)
    have hin : Json.as_i64 (Json.intNum a) = some a := by
      simp only [Json.as_i64]
      rw [if_pos ⟨ha.1, ha.2⟩]
    have ht := collect_format_array_element_ok t (fun n hn => h n (by simp [hn]))
    simp [collect_except, format_array_element, hin, ht]

/-- Collecting `format_array_element` over a list containing a
non-integer element fails. -/
lemma collect_format_array_element_err :
    ∀ vs : List Json, (∃ v ∈ vs, v.as_i64 = none) →
      ∃ e, collect_except format_array_element vs = Except.error e
  | [], h => by simp at h
  | a :: t, h => by
    rcases h with ⟨v, hv, hnone⟩
    rcases List.mem_cons.mp hv with rfl | hmem
    · exact ⟨"Array element must be integer: " ++ jsonDebug v,
        by simp [collect_except, format_array_element, hnone]⟩
    · cases ha : a.as_i64 with
      | none =>
        exact ⟨"Array element must be integer: " ++ jsonDebug a,
          by simp [collect_except, format_array_element, ha]⟩
      | some n =>
        obtain ⟨e, he⟩ := collect_format_array_element_err t ⟨v, hmem, hnone⟩
        exact ⟨e, by simp [collect_except, format_array_element, ha, he]⟩

/-- Reduction of `format_single_arg` on a pointer-to-int parameter type. -/
lemma format_single_arg_int_ptr (param_type : String) (value : Json)
    (h : (str_contains param_type "int*" || str_contains param_type "int *") = true) :
    format_single_arg param_type value =
      (if value.as_str = some "NULL" then Except.ok "NULL"
       else
         match value.as_array with
         | some arr =>
           match collect_except format_array_element arr with
           | Except.error e => Except.error e
           | Except.ok elements =>
             Except.ok ("(int[])\x7b " ++ String.intercalate ", " elements ++ " \x7d")
         | none =>
           match value.as_i64 with
           | some n => Except.ok ("&(int)\x7b" ++ toString n ++ "\x7d")
           | none =>
             Except.error ("Expected integer, array, or \x27NULL\x27, got "
               ++ jsonDebug value)) := by
  unfold format_single_arg
  rw [if_pos h]

/-- C8: for a pointer-to-int parameter, `format_single_arg` performs a
three-way dispatch on the JSON input: the literal string "NULL" is
emitted as the C NULL keyword (not a numeric zero); an array of integers
is emitted as a decaying anonymous array literal with its elements in
order; a bare integer n is emitted as a pointer to one anonymous integer;
every other JSON value - a non-integer-bearing array, a non-"NULL"
string, null, a boolean, a float, an object - is an error. -/
theorem int_pointer_three_way_dispatch :
    ∀ param_type : String,
      (str_contains param_type "int*" || str_contains param_type "int *") = true →
      format_single_arg param_type (Json.str "NULL") = Except.ok "NULL" ∧
      (∀ ns : List Int, (∀ n ∈ ns, -(2 ^ 63) ≤ n ∧ n < 2 ^ 63) →
        format_single_arg param_type (Json.arr (ns.map Json.intNum)) =
          Except.ok ("(int[])\x7b " ++ String.intercalate ", " (ns.map toString)
            ++ " \x7d")) ∧
      (∀ n : Int, -(2 ^ 63) ≤ n → n < 2 ^ 63 →
        format_single_arg param_type (Json.intNum n) =
          Except.ok ("&(int)\x7b" ++ toString n ++ "\x7d")) ∧
      (∀ vs : List Json, (∃ v ∈ vs, v.as_i64 = none) →
        ∃ e, format_single_arg param_type (Json.arr vs) = Except.error e) ∧
      (∀ s : String, s ≠ "NULL" →
        ∃ e, format_single_arg param_type (Json.str s) = Except.error e) ∧
      (∃ e, format_single_arg param_type Json.null = Except.error e) ∧
      (∀ b, ∃ e, format_single_arg param_type (Json.bool b) = Except.error e) ∧
      (∀ r, ∃ e, format_single_arg param_type (Json.floatNum r) = Except.error e) ∧
      (∀ kvs, ∃ e, format_single_arg param_type (Json.obj kvs) = Except.error e) := by
  intro t h
  refine ⟨?_, ?_, ?_, ?_, ?_, ?_, ?_, ?_, ?_⟩
  · rw [format_single_arg_int_ptr t _ h]
    simp [Json.as_str]
  · intro ns hns
    rw [format_single_arg_int_ptr t _ h]
    simp [Json.as_str, Json.as_array, collect_format_array_element_ok ns hns]
  · intro n h1 h2
    have hin : Json.as_i64 (Json.intNum n) = some n := by
      simp only [Json.as_i64]
      rw [if_pos ⟨h1, h2⟩]
    rw [format_single_arg_int_ptr t _ h]
    simp [Json.as_str, Json.as_array, hin]
  · intro vs hvs
    obtain ⟨e, he⟩ := collect_format_array_element_err vs hvs
    exact ⟨e, by rw [format_single_arg_int_ptr t _ h]; simp [Json.as_str, Json.as_array, he]⟩
  · intro s hs
    exact ⟨"Expected integer, array, or \x27NULL\x27, got " ++ jsonDebug (Json.str s),
      by rw [format_single_arg_int_ptr t _ h]; simp [Json.as_str, Json.as_array, Json.as_i64, hs]⟩
  · exact ⟨"Expected integer, array, or \x27NULL\x27, got " ++ jsonDebug Json.null,
      by rw [format_single_arg_int_ptr t _ h]; simp [Json.as_str, Json.as_array, Json.as_i64]⟩
  · intro b
    exact ⟨"Expected integer, array, or \x27NULL\x27, got " ++ jsonDebug (Json.bool b),
      by rw [format_single_arg_int_ptr t _ h]; simp [Json.as_str, Json.as_array, Json.as_i64]⟩
  · intro r
    exact ⟨"Expected integer, array, or \x27NULL\x27, got " ++ jsonDebug (Json.floatNum r),
      by rw [format_single_arg_int_ptr t _ h]; simp [Json.as_str, Json.as_array, Json.as_i64]⟩
  · intro kvs
    exact ⟨"Expected integer, array, or \x27NULL\x27, got " ++ jsonDebug (Json.obj kvs),
      by rw [format_single_arg_int_ptr t _ h]; simp [Json.as_str, Json.as_array, Json.as_i64]⟩

/-- Witness for C8: NULL, array, and single-integer inputs at the
parameter type "int*". -/
theorem int_pointer_three_way_dispatch_witness :
    format_single_arg "int*" (Json.str "NULL") = Except.ok "NULL" ∧
    format_single_arg "int*" (Json.arr [Json.intNum 10, Json.intNum 20, Json.intNum 30]) =
      Except.ok "(int[])\x7b 10, 20, 30 \x7d" ∧
    format_single_arg "int*" (Json.intNum 42) = Except.ok "&(int)\x7b42\x7d" := by
  obtain ⟨h1, h2, h3, -⟩ := int_pointer_three_way_dispatch "int*" (by decide)
  refine ⟨h1, ?_, ?_⟩
  · exact (h2 [10, 20, 30] (by decide)).trans rfl
  · exact (h3 42 (by decide) (by decide)).trans rfl

/-! ### C9 -/

/-- C9: under the Bubblewrap and Fallback modes the stdin_input argument
is never forwarded to the executed program - two calls differing only in
stdin_input return identical results; and the model does depend on
stdin_input under the Seccomp mode, where the input is piped to the
child. -/
theorem bwrap_and_fallback_ignore_stdin :
    (∀ (self : CCompiler) (env : ExecEnv) (source : String) (s1 s2 : Option String),
      self.sandbox_mode = SandboxMode.Bubblewrap ∨ self.sandbox_mode = SandboxMode.Fallback →
      compile_and_run_with_input self env source s1 =
        compile_and_run_with_input self env source s2) ∧
    (∃ (self : CCompiler) (env : ExecEnv) (source : String) (s1 s2 : Option String),
      self.sandbox_mode = SandboxMode.Seccomp ∧
      compile_and_run_with_input self env source s1 ≠
        compile_and_run_with_input self env source s2) := by
  constructor
  · intro self env source s1 s2 h
    obtain ⟨td, ts, mcs, mode, cfg⟩ := self
    cases mode
    · simp at h
    · rfl
    · rfl
  · refine ⟨cc_seccomp, env_echo, "int main()\x7b\x7d", some "A", some "B", rfl, ?_⟩
    intro hEq
    have h2 : ("A" : String) = "B" := congrArg
      (fun r : Except String ExecutionOutput × RunTrace =>
        match r.1 with
        | Except.ok o => o.stdout
        | Except.error _ => "") hEq
    exact absurd h2 (by decide)

/-- Witness for C9 at a concrete Bubblewrap-mode call. -/
theorem bwrap_and_fallback_ignore_stdin_witness :
    compile_and_run_with_input cc_bwrap env_ok "int main()\x7b\x7d" (some "A") =
      compile_and_run_with_input cc_bwrap env_ok "int main()\x7b\x7d" (some "B") :=
  bwrap_and_fallback_ignore_stdin.1 cc_bwrap env_ok "int main()\x7b\x7d"
    (some "A") (some "B") (Or.inl rfl)

/-! ### C10 -/

/-- Reduction of `format_single_arg` at the parameter type "char". -/
lemma format_single_arg_char (value : Json) :
    format_single_arg "char" value =
      (match value.as_str with
       | some s =>
         if s.utf8ByteSize ≠ 1 then
           Except.error ("Expected single char, got \x27" ++ s ++ "\x27")
         else Except.ok ("\x27" ++ s ++ "\x27")
       | none => Except.error ("Expected char string, got " ++ jsonDebug value)) := by
  unfold format_single_arg
  rw [if_neg (by decide), if_neg (by decide), if_neg (by decide), if_neg (by decide),
    if_pos rfl]

/-- C10: for a parameter of declared type "char", the argument must be a
JSON string of byte length exactly one: any non-string value, the empty
string, and any string of two or more bytes (including one multi-byte
UTF-8 character) are errors; an accepted character is emitted between
single quotes with no escaping. -/
theorem char_parameter_single_byte_string :
    (∀ s : String, s.utf8ByteSize = 1 →
      format_single_arg "char" (Json.str s) = Except.ok ("\x27" ++ s ++ "\x27")) ∧
    (∀ s : String, s.utf8ByteSize ≠ 1 →
      ∃ e, format_single_arg "char" (Json.str s) = Except.error e) ∧
    (∃ e, format_single_arg "char" Json.null = Except.error e) ∧
    (∀ b, ∃ e, format_single_arg "char" (Json.bool b) = Except.error e) ∧
    (∀ n : Int, ∃ e, format_single_arg "char" (Json.intNum n) = Except.error e) ∧
    (∀ r, ∃ e, format_single_arg "char" (Json.floatNum r) = Except.error e) ∧
    (∀ vs, ∃ e, format_single_arg "char" (Json.arr vs) = Except.error e) ∧
    (∀ kvs, ∃ e, format_single_arg "char" (Json.obj kvs) = Except.error e) := by
  refine ⟨?_, ?_, ?_, ?_, ?_, ?_, ?_, ?_⟩
  · intro s hs
    rw [format_single_arg_char]
    simp [Json.as_str, hs]
  · intro s hs
    exact ⟨"Expected single char, got \x27" ++ s ++ "\x27",
      by rw [format_single_arg_char]; simp [Json.as_str, hs]⟩
  · exact ⟨"Expected char string, got " ++ jsonDebug Json.null,
      by rw [format_single_arg_char]; rfl⟩
  · intro b
    exact ⟨"Expected char string, got " ++ jsonDebug (Json.bool b),
      by rw [format_single_arg_char]; rfl⟩
  · intro n
    exact ⟨"Expected char string, got " ++ jsonDebug (Json.intNum n),
      by rw [format_single_arg_char]; rfl⟩
  · intro r
    exact ⟨"Expected char string, got " ++ jsonDebug (Json.floatNum r),
      by rw [format_single_arg_char]; rfl⟩
  · intro vs
    exact ⟨"Expected char string, got " ++ jsonDebug (Json.arr vs),
      by rw [format_single_arg_char]; rfl⟩
  · intro kvs
    exact ⟨"Expected char string, got " ++ jsonDebug (Json.obj kvs),
      by rw [format_single_arg_char]; rfl⟩

/-- Witness for C10: one accepted character; empty, two-byte ASCII,
multi-byte UTF-8, and non-string inputs all rejected. -/
theorem char_parameter_single_byte_string_witness :
    format_single_arg "char" (Json.str "a") = Except.ok "\x27a\x27" ∧
    (∃ e, format_single_arg "char" (Json.str "") = Except.error e) ∧
    (∃ e, format_single_arg "char" (Json.str "ab") = Except.error e) ∧
    (∃ e, format_single_arg "char" (Json.str "é") = Except.error e) ∧
    (∃ e, format_single_arg "char" (Json.intNum 97) = Except.error e) := by
  obtain ⟨h1, h2, -, -, h5, -⟩ := char_parameter_single_byte_string
  exact ⟨h1 "a" (by decide), h2 "" (by decide), h2 "ab" (by decide),
    h2 "é" (by decide), h5 97⟩
